import Mathlib

/-!
Verification of the change-monitor core of `cola/inotify.py`.

The module provides a debounced filesystem-change notifier:
`Handler` coalesces bursts of events into one broadcast per quiet
interval, `FileSysEvent.process_default` filters raw inotify events,
`GitNotifier` registers directories with the backend watch manager and
runs the polling loop, and the module-level `start` / `stop` functions
manage the lifecycle.  Each Python function is embedded below as a pure
Lean function over explicit state; filesystem facts (`realpath`,
existence, `isfile`, `relpath`) are supplied as an abstract record.
-/

namespace Cola

/-! ## Handler: the debouncer (inotify.py lines 92-113) -/

/-- Quiet interval, in milliseconds: the code constructs
`Timer(0.888, self.broadcast)`. -/
def quietMs : Nat := 888

/-- State of a `Handler`: `timer` is the pending `threading.Timer`,
represented by its fire deadline (absolute time in ms), or `none` when no
batch is pending (`self._timer = None`). -/
structure HandlerState where
  timer : Option Nat
deriving DecidableEq, Repr

/-- `Handler.handle(self, path)` at current time `now`:
under the lock, if `self._timer is None` a new `Timer(0.888, broadcast)`
is created and started; otherwise nothing happens.  The `path` argument
is ignored by the source (no file list is kept). -/
def handle (st : HandlerState) (now : Nat) : HandlerState :=
  match st.timer with
  | some _ => st
  | none => { timer := some (now + quietMs) }

/-- `Handler.broadcast(self)`: under the lock it runs
`cmds.do(cmds.UpdateFileStatus)` and then assigns `self._timer = None`.
`cbOk` models whether the downstream command returns normally; when it
raises, the assignment on the following line is never reached and the
exception escapes.  Result: (new state, number of downstream callback
invocations, whether an exception escaped). -/
def broadcast (st : HandlerState) (cbOk : Bool) : HandlerState × Nat × Bool :=
  if cbOk then ({ timer := none }, 1, false)
  else (st, 1, true)

/-- One notify arriving at time `t` in a timed trace.  A pending timer
whose deadline has passed (`d ≤ t`) fires first — `broadcast` with a
succeeding callback records the broadcast time `d` and clears the flag —
and then the notify is handled.  Accumulator: (handler state, broadcast
times so far). -/
def stepNotify (acc : HandlerState × List Nat) (t : Nat) : HandlerState × List Nat :=
  match acc.1.timer with
  | some d =>
      if d ≤ t then
        let st := (broadcast acc.1 true).1
        (handle st t, acc.2 ++ [d])
      else (handle acc.1 t, acc.2)
  | none => (handle acc.1 t, acc.2)

/-- Run the debouncer over a chronological list of notify times and let
any still-pending timer fire at the end; returns the list of broadcast
times. -/
def debounceRun (times : List Nat) : List Nat :=
  match times.foldl stepNotify ({ timer := none }, []) with
  | ({ timer := some d }, bs) => bs ++ [d]
  | ({ timer := none }, bs) => bs

/-! ## Claims C1-C3 -/

/-- C1: while a batch is pending (`self._timer` is not `None`),
`Handler.handle` is a no-op: the state — in particular the single
pending timer and its deadline — is unchanged, so no second batch is
created and the fire deadline never moves. -/
theorem handle_pending_noop (d now : Nat) :
    handle { timer := some d } now = { timer := some d } := rfl

/-- Helper for C2: while every notify in `rest` arrives strictly before
the pending deadline `d`, the fold leaves the state and the recorded
broadcasts unchanged. -/
theorem foldl_stepNotify_before_deadline (d : Nat) (bs : List Nat) :
    ∀ rest : List Nat, (∀ t ∈ rest, t < d) →
      rest.foldl stepNotify ({ timer := some d }, bs) = ({ timer := some d }, bs) := by
  intro rest
  induction rest with
  | nil => intro _; rfl
  | cons t ts ih =>
      intro h
      have ht : t < d := h t (List.mem_cons_self t ts)
      have hts : ∀ u ∈ ts, u < d := fun u hu => h u (List.mem_cons_of_mem t hu)
      have hstep : stepNotify ({ timer := some d }, bs) t = ({ timer := some d }, bs) := by
        simp [stepNotify, Nat.not_le.mpr ht, handle]
      rw [List.foldl_cons, hstep, ih hts]

/-- C2 (amended): for a burst whose every later notify arrives strictly
less than one quiet interval after the first, exactly one broadcast
fires, at exactly one quiet interval after the first notify (hence no
sooner than that). -/
theorem burst_single_broadcast (t0 : Nat) (rest : List Nat)
    (h : ∀ t ∈ rest, t < t0 + quietMs) :
    debounceRun (t0 :: rest) = [t0 + quietMs] := by
  unfold debounceRun
  rw [List.foldl_cons]
  have h0 : stepNotify ({ timer := none }, []) t0
      = ({ timer := some (t0 + quietMs) }, []) := by
    simp [stepNotify, handle]
  rw [h0, foldl_stepNotify_before_deadline (t0 + quietMs) [] rest h]
  rfl

/-- C2 witness: a concrete burst at 0, 100, 200 ms produces the single
broadcast at 888 ms. -/
theorem burst_single_broadcast_witness :
    debounceRun [0, 100, 200] = [0 + quietMs] :=
  burst_single_broadcast 0 [100, 200] (by decide)

/-- C2 counterexample: notifies at 0, 500 and 1000 ms each arrive less
than one quiet interval (888 ms) after the previous one, yet two
broadcasts fire (at 888 and 1888 ms), refuting "exactly one downstream
broadcast" for gaps measured between consecutive events. -/
theorem burst_gap_counterexample :
    (500 - 0 < quietMs ∧ 1000 - 500 < quietMs) ∧
      debounceRun [0, 500, 1000] = [888, 1888] ∧
      (debounceRun [0, 500, 1000]).length ≠ 1 := by decide

/-- C3 (amended): `Handler.broadcast` invokes the downstream callback
exactly once and only afterwards clears the pending flag; when the
callback returns normally the flag is cleared, and when it raises the
assignment `self._timer = None` is never reached, so the state is
unchanged and — the timer still being set — a subsequent `handle` is a
no-op: no future batch can be scheduled. -/
theorem broadcast_order (st : HandlerState) (cbOk : Bool) :
    (broadcast st cbOk).2.1 = 1 ∧
      (cbOk = true → (broadcast st cbOk).1.timer = none) ∧
      (cbOk = false → (broadcast st cbOk).1 = st ∧
        ∀ d now, st.timer = some d → handle (broadcast st cbOk).1 now = st) := by
  cases cbOk with
  | true =>
      refine ⟨rfl, fun _ => rfl, ?_⟩
      intro h
      cases h
  | false =>
      refine ⟨rfl, ?_, ?_⟩
      · intro h
        cases h
      · intro _
        refine ⟨rfl, ?_⟩
        intro d now hd
        simp [broadcast, handle, hd]

/-- C3 witness: with a pending timer at 5 and a succeeding callback the
flag is cleared; with a raising callback the timer stays at 5 and a
later `handle` at time 2000 changes nothing. -/
theorem broadcast_order_witness :
    (broadcast { timer := some 5 } true).1.timer = none ∧
      handle (broadcast { timer := some 5 } false).1 2000 = { timer := some 5 } :=
  ⟨(broadcast_order { timer := some 5 } true).2.1 rfl,
   ((broadcast_order { timer := some 5 } false).2.2 rfl).2 5 2000 rfl⟩

/-- C3 counterexample: the claim says the pending flag is cleared before
the callback runs, so even a raising callback would leave `timer = none`
and a subsequent notify could schedule a new batch.  In the code the
callback runs first: after a raising callback from `timer = some 1000`
the timer is still `some 1000`, and a notify at time 2000 is a no-op. -/
theorem broadcast_clear_first_counterexample :
    (broadcast { timer := some 1000 } false).1.timer ≠ none ∧
      handle (broadcast { timer := some 1000 } false).1 2000
        = { timer := some 1000 } := by decide

/-! ## Filesystem abstraction and directory registration
(inotify.py lines 116-132 and 166-175) -/

/-- Abstract filesystem facts consumed by the code: `os.path.realpath`
(via `core.realpath`), `os.path.exists` (via `core.exists`),
`os.path.isfile`, and `os.path.relpath`. -/
structure FileSys where
  realpath : String → String
  pathExists : String → Bool
  isfile : String → Bool
  relpath : String → String

/-- The registration state of a `GitNotifier`: whether `self._wmgr` is
set, the sequence of `add_watch` calls issued to the backend, and the
`self._dirs_seen` membership set. -/
structure WatchState where
  wmgr : Bool
  watchList : List String
  dirsSeen : List String
deriving DecidableEq, Repr

/-- `GitNotifier._watch_directory(self, directory)` with its Python
return value made explicit: every path through the function falls off
the end, so it always returns `None` (here `none`).  The body: bail out
if `self._wmgr` is unset; canonicalize with `core.realpath`; bail out if
the canonical path does not exist; if it is not in `self._dirs_seen`,
call `self._wmgr.add_watch(directory, mask)` and record it. -/
def watch_directory_ret (fs : FileSys) (st : WatchState) (directory : String) :
    WatchState × Option Bool :=
  if st.wmgr = false then (st, none)
  else if fs.pathExists (fs.realpath directory) = false then (st, none)
  else if fs.realpath directory ∈ st.dirsSeen then (st, none)
  else ({ st with
            watchList := st.watchList ++ [fs.realpath directory],
            dirsSeen := fs.realpath directory :: st.dirsSeen }, none)

/-- The state effect of `_watch_directory`. -/
def watch_directory (fs : FileSys) (st : WatchState) (directory : String) : WatchState :=
  (watch_directory_ret fs st directory).1

/-- The registration state at the top of `GitNotifier.run`, once
`self._wmgr = WatchManager()` has been assigned: no watches yet. -/
def initWatchState : WatchState :=
  { wmgr := true, watchList := [], dirsSeen := [] }

/-- Single-writer invariant of the registration state: the backend never
holds duplicate registrations, and everything registered is recorded in
`_dirs_seen`. -/
def WatchInv (st : WatchState) : Prop :=
  st.watchList.Nodup ∧ ∀ x ∈ st.watchList, x ∈ st.dirsSeen

theorem watch_directory_inv (fs : FileSys) (st : WatchState) (d : String)
    (h : WatchInv st) : WatchInv (watch_directory fs st d) := by
  obtain ⟨hnd, hsub⟩ := h
  unfold watch_directory watch_directory_ret
  by_cases hw : st.wmgr = false
  · simpa [hw] using And.intro hnd hsub
  · by_cases hex : fs.pathExists (fs.realpath d) = false
    · simpa [hw, hex] using And.intro hnd hsub
    · by_cases hmem : fs.realpath d ∈ st.dirsSeen
      · simpa [hw, hex, hmem] using And.intro hnd hsub
      · simp only [if_neg hw, if_neg hex, if_neg hmem]
        constructor
        · rw [List.nodup_append]
          refine ⟨hnd, List.nodup_singleton _, ?_⟩
          intro x hx hx'
          rw [List.mem_singleton] at hx'
          exact hmem (hx' ▸ hsub x hx)
        · intro x hx
          rcases List.mem_append.mp hx with hx | hx
          · exact List.mem_cons_of_mem _ (hsub x hx)
          · rw [List.mem_singleton] at hx
            exact hx ▸ List.mem_cons_self _ _

theorem foldl_watch_directory_inv (fs : FileSys) (calls : List String)
    (st : WatchState) (h : WatchInv st) :
    WatchInv (calls.foldl (watch_directory fs) st) := by
  induction calls generalizing st with
  | nil => exact h
  | cons c cs ih => exact ih _ (watch_directory_inv fs st c h)

/-- A filesystem where every path is canonical and present. -/
def idFS : FileSys :=
  { realpath := fun s => s
    pathExists := fun _ => true
    isfile := fun _ => true
    relpath := fun s => s }

/-- A filesystem where no path exists. -/
def emptyFS : FileSys :=
  { realpath := fun s => s
    pathExists := fun _ => false
    isfile := fun _ => false
    relpath := fun s => s }

/-! ## Claim C4 -/

/-- C4 (amended): `_watch_directory` canonicalizes before the membership
test (so it depends on its argument only through `realpath`, and two
spellings of one directory are registered once), it is idempotent, a
directory that does not exist at registration time is skipped without
effect or error, over any call sequence the backend registration happens
at most once per canonical directory, and the operation always returns
`None` — it does not return whether the directory was newly added. -/
theorem watch_directory_spec (fs : FileSys) :
    (∀ st d1 d2, fs.realpath d1 = fs.realpath d2 →
       watch_directory fs st d1 = watch_directory fs st d2) ∧
    (∀ st d, watch_directory fs (watch_directory fs st d) d = watch_directory fs st d) ∧
    (∀ st d, fs.pathExists (fs.realpath d) = false → watch_directory fs st d = st) ∧
    (∀ (calls : List String) (x : String),
       (calls.foldl (watch_directory fs) initWatchState).watchList.count x ≤ 1) ∧
    (∀ st d, (watch_directory_ret fs st d).2 = none) := by
  refine ⟨?_, ?_, ?_, ?_, ?_⟩
  · intro st d1 d2 hreal
    unfold watch_directory watch_directory_ret
    rw [hreal]
  · intro st d
    unfold watch_directory watch_directory_ret
    by_cases hw : st.wmgr = false
    · simp [hw]
    · by_cases hex : fs.pathExists (fs.realpath d) = false
      · simp [hw, hex]
      · by_cases hmem : fs.realpath d ∈ st.dirsSeen
        · simp [hw, hex, hmem]
        · simp [hw, hex, hmem]
  · intro st d hex
    unfold watch_directory watch_directory_ret
    by_cases hw : st.wmgr = false
    · simp [hw]
    · simp [hw, hex]
  · intro calls x
    have hinv : WatchInv (calls.foldl (watch_directory fs) initWatchState) :=
      foldl_watch_directory_inv fs calls initWatchState
        ⟨List.nodup_nil, by intro x hx; cases hx⟩
    exact List.nodup_iff_count_le_one.mp hinv.1 x
  · intro st d
    unfold watch_directory_ret
    by_cases hw : st.wmgr = false
    · simp [hw]
    · by_cases hex : fs.pathExists (fs.realpath d) = false
      · simp [hw, hex]
      · by_cases hmem : fs.realpath d ∈ st.dirsSeen
        · simp [hw, hex, hmem]
        · simp [hw, hex, hmem]

/-- C4 witness: concrete uses of each conjunct — same-spelling
invariance, idempotence at `/a`, skipping a nonexistent directory,
the at-most-once bound for a repeated call sequence, and the `None`
return on a call that does add a new directory. -/
theorem watch_directory_spec_witness :
    watch_directory idFS initWatchState "/a" = watch_directory idFS initWatchState "/a" ∧
    watch_directory idFS (watch_directory idFS initWatchState "/a") "/a"
      = watch_directory idFS initWatchState "/a" ∧
    watch_directory emptyFS initWatchState "/a" = initWatchState ∧
    ((["/a", "/a", "/b"].foldl (watch_directory idFS) initWatchState).watchList.count "/a" ≤ 1) ∧
    (watch_directory_ret idFS initWatchState "/a").2 = none :=
  ⟨(watch_directory_spec idFS).1 initWatchState "/a" "/a" rfl,
   (watch_directory_spec idFS).2.1 initWatchState "/a",
   (watch_directory_spec emptyFS).2.2.1 initWatchState "/a" rfl,
   (watch_directory_spec idFS).2.2.2.1 ["/a", "/a", "/b"] "/a",
   (watch_directory_spec idFS).2.2.2.2 initWatchState "/a"⟩

/-- C4 counterexample: the claim says the operation returns whether the
directory was newly added.  On a call that does newly add `/a` (the seen
set changes), the Python function still returns `None`, not a boolean. -/
theorem watch_directory_return_counterexample :
    (watch_directory idFS initWatchState "/a").dirsSeen ≠ initWatchState.dirsSeen ∧
      (watch_directory_ret idFS initWatchState "/a").2 = none ∧
      ∀ b : Bool, (watch_directory_ret idFS initWatchState "/a").2 ≠ some b := by
  refine ⟨by decide, rfl, ?_⟩
  intro b
  simp [watch_directory_ret, idFS, initWatchState]

/-! ## Claim C5: FileSysEvent.process_default (inotify.py lines 125-132) -/

/-- `os.path.join(a, b)` for one component, POSIX rules: an absolute
second component discards the first; otherwise the parts are joined with
a single separator. -/
def joinPath (a b : String) : String :=
  if b.toList.head? = some '/' then b
  else if a = "" ∨ a.toList.getLast? = some '/' then a ++ b
  else a ++ "/" ++ b

/-- `FileSysEvent.process_default(self, event)`: drop events with an
empty name; join `event.path` and `event.name`; if the joined path
exists, normalize it with `os.path.relpath` and hand it to
`Handler.handle`.  Returns the path passed to `handle`, or `none` when
`handle` is never called. -/
def process_default (fs : FileSys) (evPath evName : String) : Option String :=
  if evName = "" then none
  else
    if fs.pathExists (joinPath evPath evName) = true then
      some (fs.relpath (joinPath evPath evName))
    else none

/-- C5: an event with an empty file name, or whose joined full path does
not exist on disk, never reaches the debouncer; otherwise the path is
normalized with `relpath` before `handle` is called with it. -/
theorem process_default_filter (fs : FileSys) (evPath evName : String) :
    (evName = "" ∨ fs.pathExists (joinPath evPath evName) = false →
       process_default fs evPath evName = none) ∧
    (evName ≠ "" → fs.pathExists (joinPath evPath evName) = true →
       process_default fs evPath evName = some (fs.relpath (joinPath evPath evName))) := by
  constructor
  · intro h
    by_cases hn : evName = ""
    · simp [process_default, hn]
    · rcases h with h | h
      · exact absurd h hn
      · simp [process_default, hn, h]
  · intro h1 h2
    simp [process_default, h1, h2]

/-- A filesystem on which exactly `proj/a.txt` exists. -/
def oneFileFS : FileSys :=
  { realpath := fun s => s
    pathExists := fun s => s == "proj/a.txt"
    isfile := fun s => s == "proj/a.txt"
    relpath := fun s => s }

/-- C5 witness: an empty name is dropped, a vanished path is dropped,
and an existing path is forwarded after normalization. -/
theorem process_default_filter_witness :
    process_default oneFileFS "proj" "" = none ∧
      process_default oneFileFS "proj" "missing.txt" = none ∧
      process_default oneFileFS "proj" "a.txt"
        = some (oneFileFS.relpath (joinPath "proj" "a.txt")) :=
  ⟨(process_default_filter oneFileFS "proj" "").1 (Or.inl rfl),
   (process_default_filter oneFileFS "proj" "missing.txt").1 (Or.inr (by decide)),
   (process_default_filter oneFileFS "proj" "a.txt").2 (by decide) (by decide)⟩

/-! ## Module lifecycle: start and stop (inotify.py lines 43-89) -/

/-- Platform as probed by `utils.is_win32()` / `utils.is_linux()`. -/
inductive Platform
  | linux
  | win32
  | other
deriving DecidableEq, Repr

/-- Message logged when the `cola.inotify` flag is false. -/
def msgConfigDisabled : String :=
  "inotify is disabled because \"cola.inotify\" is false"

/-- Message logged on win32 when pywin32 is missing. -/
def msgWin32Unavailable : String :=
  "file notification: disabled\nNote: install pywin32 to enable.\n"

/-- Message logged on Linux when pyinotify is missing. -/
def msgLinuxUnavailable : String :=
  "inotify: disabled\nNote: install python-pyinotify to enable inotify.\n"

/-- Appended to the unavailable message on Debian systems. -/
def msgDebianHint : String :=
  "On Debian systems try: sudo aptitude install python-pyinotify"

/-- Message logged once the thread is started, win32 variant. -/
def msgEnabledWin32 : String := "File notification enabled."

/-- Message logged once the thread is started, inotify variant. -/
def msgEnabledInotify : String := "inotify enabled."

/-- Module-level `start()`: reads `cfg.get('cola.inotify', True)`; if
false, logs one message and returns.  Then, if `AVAILABLE` is false,
builds the platform-specific hint (returning silently on platforms that
are neither win32 nor linux), appends the Debian hint when applicable,
logs it once and returns.  Otherwise it creates and starts the
`GitNotifier` thread and logs the enabled message.  Result: the list of
`Interaction.log` messages, and whether a thread was started. -/
def start (cfgInotify available : Bool) (plat : Platform) (debian : Bool) :
    List String × Bool :=
  if !cfgInotify then ([msgConfigDisabled], false)
  else if !available then
    match plat with
    | Platform.win32 =>
        ([msgWin32Unavailable ++ if debian then msgDebianHint else ""], false)
    | Platform.linux =>
        ([msgLinuxUnavailable ++ if debian then msgDebianHint else ""], false)
    | Platform.other => ([], false)
  else
    ([if plat = Platform.win32 then msgEnabledWin32 else msgEnabledInotify], true)

/-! ## Claims C6 and C7 -/

/-- C6: with `cola.inotify` false, `start()` logs exactly the one
disabled-by-config diagnostic and starts no thread, for every value of
`AVAILABLE` and every platform — the flag check precedes the capability
check, so a disabled flag masks an unavailable backend. -/
theorem start_flag_disabled (available : Bool) (plat : Platform) (debian : Bool) :
    start false available plat debian = ([msgConfigDisabled], false) := rfl

/-- C7 (amended): when the capability check fails, `start()` never
starts a thread; on win32 and linux it logs exactly one diagnostic
carrying the platform-specific installation hint (plus the Debian hint
when applicable), but on any other platform it returns silently with no
diagnostic at all. -/
theorem start_unavailable (plat : Platform) (debian : Bool) :
    (start true false plat debian).2 = false ∧
      (start true false plat debian).1 =
        (match plat with
         | Platform.win32 => [msgWin32Unavailable ++ if debian then msgDebianHint else ""]
         | Platform.linux => [msgLinuxUnavailable ++ if debian then msgDebianHint else ""]
         | Platform.other => []) := by
  cases plat <;> exact ⟨rfl, rfl⟩

/-- C7 counterexample: on a platform that is neither win32 nor linux
(e.g. another POSIX system without pyinotify), `start()` with the
capability check failed produces zero diagnostic messages, not exactly
one. -/
theorem start_unavailable_counterexample :
    (start true false Platform.other false).1.length = 0 ∧
      (start true false Platform.other false).2 = false ∧
      (start true false Platform.other false).1.length ≠ 1 := by decide

/-! ## Claim C8: stop and the pending timer -/

/-- The cross-thread state relevant to `stop()`: the `GitNotifier`
fields `_running` and `_timeout`, the `Handler`'s pending timer, and a
count of downstream broadcasts fired so far. -/
structure NotifierState where
  running : Bool
  timeout : Nat
  timer : Option Nat
  broadcasts : Nat
deriving DecidableEq, Repr

/-- `GitNotifier.stop(self, stopped)`: `self._timeout = 0;
self._running = not stopped`.  The module-level `stop()` calls it with
`stopped=True` and then joins the thread.  Nothing touches the
`Handler`'s timer. -/
def gitnotifier_stop (st : NotifierState) (stopped : Bool) : NotifierState :=
  { st with timeout := 0, running := !stopped }

/-- The run loop's continuation guard: `while self._running`. -/
def loopContinues (st : NotifierState) : Bool := st.running

/-- A pending `threading.Timer` reaching its deadline: it runs
`Handler.broadcast`, which fires the downstream callback and clears the
timer.  The timer thread is independent of the `GitNotifier` thread, so
this step is enabled whenever a timer is pending, regardless of
`_running`. -/
def timerFire (st : NotifierState) : NotifierState :=
  match st.timer with
  | some _ => { st with timer := none, broadcasts := st.broadcasts + 1 }
  | none => st

/-- C8 (amended): after `stop()` the loop guard is false (so the
background thread exits and the join succeeds) and the poll timeout is
zeroed, but the `Handler`'s pending timer is left untouched: a batch
pending at the moment of the stop still fires its one broadcast when its
deadline arrives. -/
theorem stop_spec (st : NotifierState) :
    loopContinues (gitnotifier_stop st true) = false ∧
      (gitnotifier_stop st true).timeout = 0 ∧
      (gitnotifier_stop st true).timer = st.timer ∧
      (∀ d, st.timer = some d →
        (timerFire (gitnotifier_stop st true)).broadcasts = st.broadcasts + 1) := by
  refine ⟨rfl, rfl, rfl, ?_⟩
  intro d hd
  simp [timerFire, gitnotifier_stop, hd]

/-- C8 witness: a session with a batch pending at deadline 888 is
stopped; the loop guard is false, the timer survives, and the fire step
still produces the broadcast. -/
theorem stop_spec_witness :
    loopContinues (gitnotifier_stop ⟨true, 333, some 888, 0⟩ true) = false ∧
      (timerFire (gitnotifier_stop ⟨true, 333, some 888, 0⟩ true)).broadcasts = 0 + 1 :=
  ⟨(stop_spec ⟨true, 333, some 888, 0⟩).1,
   (stop_spec ⟨true, 333, some 888, 0⟩).2.2.2 888 rfl⟩

/-- C8 counterexample: the claim says a batch pending when `stop()` is
called never fires afterwards.  `stop` does not cancel the timer: from a
running state with a pending deadline, after `stop` the timer is still
set, and its fire step raises the broadcast count from 0 to 1 — a
downstream broadcast after `stop()`. -/
theorem stop_pending_fires_counterexample :
    (gitnotifier_stop ⟨true, 333, some 888, 0⟩ true).timer = some 888 ∧
      (timerFire (gitnotifier_stop ⟨true, 333, some 888, 0⟩ true)).broadcasts = 1 := by
  decide

/-! ## Claim C9: startup registration in GitNotifier.run
(inotify.py lines 196-209) -/

/-- `str.splitlines()` on newline-separated output: split at each
newline, keeping interior empty lines but producing no empty final
element for a trailing newline. -/
def splitlinesAux : List Char → List Char → List String
  | [], acc =>
      match acc with
      | [] => []
      | _ => [String.mk acc.reverse]
  | c :: cs, acc =>
      if c = '\n' then String.mk acc.reverse :: splitlinesAux cs []
      else splitlinesAux cs (c :: acc)

/-- `str.splitlines()` (newline terminators only). -/
def splitlines (s : String) : List String :=
  splitlinesAux s.toList []

/-- `os.path.dirname`, POSIX rules: everything up to the final
separator, with trailing separators stripped unless the result is all
separators. -/
def dirname (p : String) : String :=
  let head := (p.toList.reverse.dropWhile (fun c => c ≠ '/')).reverse
  if head ≠ [] ∧ ¬ head.all (fun c => c = '/') then
    String.mk ((head.reverse.dropWhile (fun c => c = '/')).reverse)
  else String.mk head

/-- The registration phase of `GitNotifier.run` (Linux path): create the
watch manager (state `initWatchState`), call
`self._watch_directory(self._path)` on the worktree root, then for each
line of `self._git.ls_files()` output take `core.realpath(filename)`,
its `os.path.dirname`, and register that directory. -/
def runStartup (fs : FileSys) (root : String) (lsFilesOut : String) : WatchState :=
  let st1 := watch_directory fs initWatchState root
  (splitlines lsFilesOut).foldl
    (fun st filename => watch_directory fs st (dirname (fs.realpath filename))) st1

/-- C9: the root is registered first, then the parent directory of each
tracked file in enumeration order; for two tracked files in two distinct
subdirectories (both distinct from the root), the backend receives
exactly the three registrations `[root, parent1, parent2]` — each once —
and the seen-set holds exactly those three directories. -/
theorem runStartup_three_dirs (fs : FileSys) (root f1 f2 out r d1 d2 : String)
    (hsplit : splitlines out = [f1, f2])
    (hr : fs.realpath root = r)
    (h1 : fs.realpath (dirname (fs.realpath f1)) = d1)
    (h2 : fs.realpath (dirname (fs.realpath f2)) = d2)
    (her : fs.pathExists r = true)
    (he1 : fs.pathExists d1 = true)
    (he2 : fs.pathExists d2 = true)
    (hne1 : d1 ≠ r) (hne2 : d2 ≠ r) (hne12 : d2 ≠ d1) :
    (runStartup fs root out).watchList = [r, d1, d2] ∧
      (runStartup fs root out).dirsSeen = [d2, d1, r] := by
  unfold runStartup
  rw [hsplit]
  simp only [List.foldl_cons, List.foldl_nil]
  simp [watch_directory, watch_directory_ret, initWatchState,
        hr, h1, h2, her, he1, he2, hne1, hne2, hne12]

/-- C9 witness: root `/proj` and tracked files `/proj/a/x.txt`,
`/proj/b/y.txt` on an all-paths-exist canonical filesystem yield the
registrations `[/proj, /proj/a, /proj/b]`. -/
theorem runStartup_three_dirs_witness :
    (runStartup idFS "/proj" "/proj/a/x.txt\n/proj/b/y.txt\n").watchList
        = ["/proj", "/proj/a", "/proj/b"] ∧
      (runStartup idFS "/proj" "/proj/a/x.txt\n/proj/b/y.txt\n").dirsSeen
        = ["/proj/b", "/proj/a", "/proj"] :=
  runStartup_three_dirs idFS "/proj" "/proj/a/x.txt" "/proj/b/y.txt"
    "/proj/a/x.txt\n/proj/b/y.txt\n" "/proj" "/proj/a" "/proj/b"
    (by decide) rfl (by decide) (by decide) rfl rfl rfl
    (by decide) (by decide) (by decide)

/-! ## Claim C10: the win32 event filter (inotify.py lines 260-267) -/

/-- `path.replace('\\', '/')`. -/
def backslashToSlash (s : String) : String :=
  String.mk (s.toList.map (fun c => if c = '\\' then '/' else c))

/-- Whether `needle` occurs as a contiguous substring of `haystack`
(Python's `in` on strings). -/
def containsAux (needle : List Char) : List Char → Bool
  | [] => needle.isEmpty
  | c :: t => needle.isPrefixOf (c :: t) || containsAux needle t

/-- String containment, `needle in haystack`. -/
def hasSubstr (needle haystack : String) : Bool :=
  containsAux needle.toList haystack.toList

/-- The per-event body of the `run_win32` result loop: normalize
backslashes to slashes, and hand the path to `Handler.handle` only if it
does not start with `.git/`, does not contain `/.git/`, and
`os.path.isfile(path)` holds.  Returns the path passed to `handle`, or
`none` when `handle` is never called. -/
def run_win32_event (fs : FileSys) (path : String) : Option String :=
  if (!(".git/".toList.isPrefixOf (backslashToSlash path).toList))
      && (!hasSubstr "/.git/" (backslashToSlash path))
      && fs.isfile (backslashToSlash path) then
    some (backslashToSlash path)
  else none

/-- C10: on the win32 backend, an event whose backslash-normalized path
starts with `.git/` or contains `/.git/`, or whose path is not an
existing regular file, never reaches the debouncer — version-control
internals and directory-level events are silently dropped. -/
theorem run_win32_git_filter (fs : FileSys) (path : String)
    (h : ".git/".toList.isPrefixOf (backslashToSlash path).toList = true ∨
         hasSubstr "/.git/" (backslashToSlash path) = true ∨
         fs.isfile (backslashToSlash path) = false) :
    run_win32_event fs path = none := by
  unfold run_win32_event
  rcases h with h | h | h <;> (simp only [h]; simp)

/-- C10 witness: `.git\index` (inside the git directory),
`src\.git\config` (a nested git directory), and a path that is not a
regular file are all dropped. -/
theorem run_win32_git_filter_witness :
    run_win32_event idFS ".git\\index" = none ∧
      run_win32_event idFS "src\\.git\\config" = none ∧
      run_win32_event oneFileFS "somedir" = none :=
  ⟨run_win32_git_filter idFS ".git\\index" (Or.inl (by decide)),
   run_win32_git_filter idFS "src\\.git\\config" (Or.inr (Or.inl (by decide))),
   run_win32_git_filter oneFileFS "somedir" (Or.inr (Or.inr (by decide)))⟩

end Cola
